import Mathlib

/-!
Verification of the nested_repo Express server: a shallow embedding of the
rate-limiter configuration (middleware/rateLimiter.js), the application
routing and error handling (app.js), the HTTPS configuration
(config/security.js, https module) and the server lifecycle (server.js),
with theorems settling the specification claims.

Machine integers of the source are modelled as Int/Nat; the values that
occur (ports, limits, window lengths) are far below any overflow boundary.
Environment variables are `Option String` (`none` = unset). JavaScript
truthiness of strings (empty string is falsy) and of numbers (0 is falsy)
is modelled explicitly.
-/

namespace NestedRepo

/-! ### JavaScript primitives -/

/-- JS truthiness of a possibly-absent string: `undefined`, `null` and the
empty string are falsy, every other string is truthy. -/
def jsTruthy : Option String → Bool
  | none => false
  | some s => !(s == "")

/-- The JS expression `a || b` where `a` is a possibly-absent string and
`b` a string: yields `a` when truthy, else `b`. -/
def jsOrString (a : Option String) (b : String) : String :=
  match a with
  | none => b
  | some s => if s == "" then b else s

/-- The JS expression `a || b` on numbers (`a` possibly absent): 0 is
falsy, so it falls through to `b`. -/
def jsOrNat (a : Option Nat) (b : Nat) : Nat :=
  match a with
  | none => b
  | some n => if n == 0 then b else n

/-- Numeric value of a list of decimal digit characters. -/
def digitsVal (l : List Char) : Nat :=
  l.foldl (fun acc c => 10 * acc + (c.toNat - '0'.toNat)) 0

/-- The digit-prefix step of JS `parseInt`: take the longest prefix of
decimal digits; `none` (NaN) when there is no digit. -/
def jsParseIntDigits (l : List Char) : Option Nat :=
  let ds := l.takeWhile Char.isDigit
  if ds.isEmpty then none else some (digitsVal ds)

/-- JS `parseInt(s, 10)`: skip leading whitespace, read an optional sign,
then the longest prefix of decimal digits; `none` models NaN. Trailing
non-digit characters are ignored, exactly as in JS. -/
def jsParseInt (s : String) : Option Int :=
  let cs := s.toList.dropWhile Char.isWhitespace
  match cs with
  | '-' :: rest => (jsParseIntDigits rest).map (fun n => -(n : Int))
  | '+' :: rest => (jsParseIntDigits rest).map (fun n => (n : Int))
  | _ => (jsParseIntDigits cs).map (fun n => (n : Int))

/-! ### middleware/rateLimiter.js -/

/-- `DEFAULT_WINDOW_MS = 15 * 60 * 1000` -/
def DEFAULT_WINDOW_MS : Int := 15 * 60 * 1000

/-- `DEFAULT_MAX_REQUESTS = 100` -/
def DEFAULT_MAX_REQUESTS : Int := 100

/-- `parseIntWithDefault(envValue, defaultValue)`: default on
undefined/null/empty, on NaN, and on non-positive parses. -/
def parseIntWithDefault (envValue : Option String) (defaultValue : Int) : Int :=
  match envValue with
  | none => defaultValue
  | some s =>
    if s == "" then defaultValue
    else
      match jsParseInt s with
      | none => defaultValue
      | some parsed => if parsed > 0 then parsed else defaultValue

/-- An environment value is invalid for the rate-limit settings when it is
unset, empty, parses to NaN, or parses to a non-positive number. -/
def invalidRateEnv (envValue : Option String) : Bool :=
  match envValue with
  | none => true
  | some s =>
    if s == "" then true
    else
      match jsParseInt s with
      | none => true
      | some parsed => parsed ≤ 0

/-- The structured JSON error body used by the limiter and by the global
handlers: `{status, error, message}`. -/
structure JsonMessage where
  status : Nat
  error : String
  message : String
  deriving Repr, DecidableEq

/-- The options the `rateLimit({...})` call receives that matter for the
claims: window, limit, and rejection message. -/
structure RateLimitOptions where
  windowMs : Int
  limit : Int
  message : JsonMessage
  deriving Repr, DecidableEq

/-- The options object of the standard `rateLimiter`, as a function of the
two environment variables `RATE_LIMIT_WINDOW_MS` and `RATE_LIMIT_MAX`. -/
def rateLimiterOptions (envWindow envMax : Option String) : RateLimitOptions :=
  { windowMs := parseIntWithDefault envWindow DEFAULT_WINDOW_MS
    limit := parseIntWithDefault envMax DEFAULT_MAX_REQUESTS
    message :=
      { status := 429
        error := "Too Many Requests"
        message := "You have exceeded the rate limit. Please try again later." } }

/-- The request fields the limiter's handler and key generator read. -/
structure LimiterReq where
  ip : Option String
  socketRemoteAddress : Option String
  originalUrl : Option String
  url : Option String
  deriving Repr, DecidableEq

/-- Console log levels used by the source. -/
inductive LogLevel where
  | info
  | warn
  | logError
  deriving Repr, DecidableEq

/-- One console entry: a level and the formatted message. -/
structure LogEntry where
  level : LogLevel
  msg : String
  deriving Repr, DecidableEq

/-- `req.ip || req.socket.remoteAddress || 'unknown'` as the handler and
the key generator both compute it. -/
def limiterClientIP (req : LimiterReq) : String :=
  jsOrString req.ip (jsOrString req.socketRemoteAddress "unknown")

/-- `req.originalUrl || req.url || '/'` -/
def limiterRequestPath (req : LimiterReq) : String :=
  jsOrString req.originalUrl (jsOrString req.url "/")

/-- Result of the limiter's rejection handler: the response it sends plus
the console entry it writes. -/
structure HandlerResult where
  status : Nat
  body : JsonMessage
  log : LogEntry
  deriving Repr, DecidableEq

/-- The `handler` option of the standard `rateLimiter`: logs the event via
`console.warn` and sends `res.status(429).json(options.message)`. -/
def rateLimitHandler (req : LimiterReq) (options : RateLimitOptions) : HandlerResult :=
  let clientIP := limiterClientIP req
  let requestPath := limiterRequestPath req
  { status := 429
    body := options.message
    log :=
      { level := LogLevel.warn
        msg := "[Rate Limit] Exceeded - IP: " ++ clientIP ++ ", Path: " ++ requestPath ++
          ", Limit: " ++ toString options.limit ++ ", Window: " ++
          toString options.windowMs ++ "ms" } }

/-- Express `req.ip` at the granularity the app configures it
(`app.set('trust proxy', 1)` when `TRUST_PROXY === 'true'`): with proxy
trust enabled and a truthy forwarded-address header, the header value;
otherwise the direct connection address. -/
def expressReqIp (trustProxy : Bool) (xForwardedFor remoteAddress : Option String) :
    Option String :=
  if trustProxy && jsTruthy xForwardedFor then xForwardedFor else remoteAddress

/-- The `keyGenerator` option: `req.ip || req.socket.remoteAddress ||
'unknown'`, with `req.ip` as Express derives it. -/
def keyGenerator (trustProxy : Bool) (xForwardedFor remoteAddress : Option String) : String :=
  jsOrString (expressReqIp trustProxy xForwardedFor remoteAddress)
    (jsOrString remoteAddress "unknown")

/-! ### app.js: routes, 404 handler, global error handler -/

/-- The response bodies the application produces on its routes and
terminal handlers. -/
inductive Body where
  | text (s : String)
  | health (status timestamp : String) (uptime : Nat)
  | notFound (status : Nat) (error message path : String)
  deriving Repr, DecidableEq

/-- An application-level response: status, content type, body. -/
structure AppResponse where
  status : Nat
  contentType : String
  body : Body
  deriving Repr, DecidableEq

/-- The request fields the routes and the 404 handler read. For the
routes defined here the match path and `req.originalUrl` coincide with
the requested path. -/
structure HttpRequest where
  method : String
  path : String
  originalUrl : String
  deriving Repr, DecidableEq

/-- The route dispatch of app.js: `GET /` sends
`200 text/plain "Hello, World!\n"`; `GET /health` sends the health JSON;
everything else falls through to the 404 handler, whose body echoes
`req.originalUrl`. -/
def appHandle (req : HttpRequest) (now : String) (uptime : Nat) : AppResponse :=
  if req.method == "GET" && req.path == "/" then
    { status := 200, contentType := "text/plain", body := Body.text "Hello, World!\n" }
  else if req.method == "GET" && req.path == "/health" then
    { status := 200, contentType := "application/json"
      body := Body.health "healthy" now uptime }
  else
    { status := 404, contentType := "application/json"
      body := Body.notFound 404 "Not Found" "The requested resource could not be found"
        req.originalUrl }

/-- The fields of a JS `Error` object the global error handler reads. -/
structure JsError where
  status : Option Nat
  statusCode : Option Nat
  message : Option String
  stack : Option String
  deriving Repr, DecidableEq

/-- The JSON response of the global error handler; `stack` is `none` when
the field is omitted from the body. -/
structure ErrorResponse where
  status : Nat
  error : String
  message : String
  stack : Option String
  deriving Repr, DecidableEq

/-- `err.status || err.statusCode` as an optional truthy value: the
error's declared status, when one is present (0 is falsy in JS). -/
def declaredStatus (err : JsError) : Option Nat :=
  match err.status with
  | some n => if n == 0 then (match err.statusCode with
      | some m => if m == 0 then none else some m
      | none => none)
    else some n
  | none =>
    match err.statusCode with
    | some m => if m == 0 then none else some m
    | none => none

/-- The global error handler of app.js: status from
`err.status || err.statusCode || 500`; error label by status; message
redacted exactly for production 500s; stack included only outside
production (and only when `err.stack` is truthy). -/
def globalErrorHandler (err : JsError) (isProduction : Bool) : ErrorResponse :=
  let statusCode := jsOrNat err.status (jsOrNat err.statusCode 500)
  { status := statusCode
    error := if statusCode == 500 then "Internal Server Error" else "Error"
    message :=
      if isProduction && statusCode == 500 then "An unexpected error occurred"
      else jsOrString err.message "An unexpected error occurred"
    stack := if !isProduction && jsTruthy err.stack then err.stack else none }

/-! ### config/security.js: CORS origin parsing -/

/-- JS `String.prototype.split(sep)` for a one-character separator, on
character lists: splitting never yields an empty list, and adjacent
separators yield empty pieces. -/
def splitOnChar (sep : Char) : List Char → List (List Char)
  | [] => [[]]
  | c :: rest =>
    let r := splitOnChar sep rest
    if c == sep then [] :: r
    else
      match r with
      | [] => [[c]]
      | h :: t => (c :: h) :: t

/-- JS `String.prototype.trim` on character lists: drop whitespace from
both ends. -/
def trimChars (l : List Char) : List Char :=
  List.rdropWhile Char.isWhitespace (l.dropWhile Char.isWhitespace)

/-- The development default origin whitelist. -/
def defaultOrigins : List String := ["http://localhost:3000", "http://localhost:8080"]

/-- `parseAllowedOrigins()`: when `ALLOWED_ORIGINS` is truthy, split on
commas, trim each piece, and drop empty pieces; otherwise the two
localhost development defaults. -/
def parseAllowedOrigins (allowedOrigins : Option String) : List String :=
  if jsTruthy allowedOrigins then
    (((splitOnChar ',' (jsOrString allowedOrigins "").toList).map trimChars).filter
      (fun l => l.length > 0)).map (fun l => String.mk l)
  else
    defaultOrigins

/-! ### config/https.js: certificate loading and secure server creation -/

/-- What the filesystem holds at a path, at the granularity
`loadCertificates` observes it: missing (`existsSync` false), present but
failing to read with an error code, or readable content of a given byte
length. -/
inductive FileState where
  | missing
  | readFail (code : String)
  | content (len : Nat)
  deriving Repr, DecidableEq

/-- The environment variables `loadCertificates` reads. -/
structure CertEnv where
  sslKeyPath : Option String
  sslCertPath : Option String
  deriving Repr, DecidableEq

/-- `DEFAULT_KEY_PATH` -/
def DEFAULT_KEY_PATH : String := "./certs/server.key"

/-- `DEFAULT_CERT_PATH` -/
def DEFAULT_CERT_PATH : String := "./certs/server.cert"

/-- `fs.existsSync` over the abstract filesystem. -/
def fsExists (fs : String → FileState) (p : String) : Bool :=
  match fs p with
  | FileState.missing => false
  | _ => true

/-- The catch block of `loadCertificates` for filesystem errors: maps the
error code to a descriptive message prefixed with
`Failed to load SSL certificates: `. -/
def fsErrorMessage (code : String) : String :=
  "Failed to load SSL certificates: " ++
    (if code == "ENOENT" then
      "Certificate file not found. Please check SSL_KEY_PATH and SSL_CERT_PATH environment variables."
    else if code == "EACCES" then
      "Permission denied when reading certificate files. Please check file permissions."
    else if code == "EISDIR" then
      "Certificate path points to a directory instead of a file."
    else code)

/-- `loadCertificates()`: resolve key/cert paths from the environment or
defaults, require both files to exist, read them, and require both to be
non-empty; every failure is a thrown `Error`, modelled as `Except.error`
carrying the message. `path.resolve` is the identity on the abstract path
space. -/
def loadCertificates (env : CertEnv) (fs : String → FileState) : Except String (Nat × Nat) :=
  let keyPath := jsOrString env.sslKeyPath DEFAULT_KEY_PATH
  let certPath := jsOrString env.sslCertPath DEFAULT_CERT_PATH
  if !(fsExists fs keyPath) then
    Except.error ("SSL private key file not found. Please ensure the file exists at the configured path. Set SSL_KEY_PATH environment variable or place key at " ++ DEFAULT_KEY_PATH)
  else if !(fsExists fs certPath) then
    Except.error ("SSL certificate file not found. Please ensure the file exists at the configured path. Set SSL_CERT_PATH environment variable or place certificate at " ++ DEFAULT_CERT_PATH)
  else
    match fs keyPath with
    | FileState.missing => Except.error (fsErrorMessage "ENOENT")
    | FileState.readFail code => Except.error (fsErrorMessage code)
    | FileState.content keyLen =>
      match fs certPath with
      | FileState.missing => Except.error (fsErrorMessage "ENOENT")
      | FileState.readFail code => Except.error (fsErrorMessage code)
      | FileState.content certLen =>
        if keyLen == 0 then Except.error "SSL private key file is empty"
        else if certLen == 0 then Except.error "SSL certificate file is empty"
        else Except.ok (keyLen, certLen)

/-- The options object `getHttpsOptions` builds. -/
structure HttpsOptions where
  keyLen : Nat
  certLen : Nat
  minVersion : String
  deriving Repr, DecidableEq

/-- `getHttpsOptions()`: load certificates (propagating any throw) and
attach the minimum TLS version. -/
def getHttpsOptions (env : CertEnv) (fs : String → FileState) : Except String HttpsOptions :=
  (loadCertificates env fs).map (fun kc => ⟨kc.1, kc.2, "TLSv1.2"⟩)

/-- A created HTTPS server: its options and the validated port it
listens on. -/
structure HttpsServer where
  options : HttpsOptions
  port : Int
  deriving Repr, DecidableEq

/-- Observable steps of `createSecureServer`, in order: the
`Initializing HTTPS server...` log, the certificate-loading attempt
(`getHttpsOptions` call), server creation, and the catch-block error
log. -/
inductive StartupEvent where
  | logInit
  | certLoadAttempt
  | serverCreated
  | logFailure (msg : String)
  deriving Repr, DecidableEq

/-- A port string is valid for `createSecureServer` when `parseInt`
yields a number in 0..65535. -/
def isValidPort (port : String) : Bool :=
  match jsParseInt port with
  | none => false
  | some n => decide (0 ≤ n) && decide (n ≤ 65535)

/-- `createSecureServer(app, port)`: validate the port first, throwing
`Invalid port number` before any certificate access; for an in-range port
load certificates and create the listener, logging and rethrowing on
failure. The second component records the observable steps taken. -/
def createSecureServer (port : String) (env : CertEnv) (fs : String → FileState) :
    Except String HttpsServer × List StartupEvent :=
  let invalidMsg := "Invalid port number: " ++ port ++ ". Port must be between 0 and 65535."
  match jsParseInt port with
  | none => (Except.error invalidMsg, [])
  | some n =>
    if n < 0 || n > 65535 then (Except.error invalidMsg, [])
    else
      match getHttpsOptions env fs with
      | Except.ok opts =>
        (Except.ok ⟨opts, n⟩,
          [StartupEvent.logInit, StartupEvent.certLoadAttempt, StartupEvent.serverCreated])
      | Except.error e =>
        (Except.error e,
          [StartupEvent.logInit, StartupEvent.certLoadAttempt,
            StartupEvent.logFailure ("Failed to create HTTPS server: " ++ e)])

/-! ### server.js: startup and graceful shutdown -/

/-- Process state after the startup section of server.js: whether the
plain HTTP listener is up, the optional HTTPS server, the console lines
written by the HTTPS section, and whether the process exited. -/
structure ServerState where
  httpListening : Bool
  httpsServer : Option HttpsServer
  logs : List String
  exitCode : Option Nat
  deriving Repr, DecidableEq

/-- The HTTPS section of server.js: the HTTP listener is already up; when
`ENABLE_HTTPS` is set, `createSecureServer` is attempted and any throw is
caught, logged with remediation guidance, and the process continues with
HTTP only. -/
def startServers (enableHttps : Bool) (httpsPort : String) (env : CertEnv)
    (fs : String → FileState) : ServerState :=
  if enableHttps then
    match (createSecureServer httpsPort env fs).1 with
    | Except.ok s =>
      { httpListening := true
        httpsServer := some s
        logs := ["HTTPS Server running on port " ++ httpsPort,
          "TLS encryption enabled with minimum TLS 1.2"]
        exitCode := none }
    | Except.error e =>
      { httpListening := true
        httpsServer := none
        logs := ["Failed to start HTTPS server: " ++ e,
          "Troubleshooting steps:",
          "1. Ensure SSL certificate files exist at configured paths",
          "2. Verify SSL_KEY_PATH and SSL_CERT_PATH environment variables",
          "3. Check file permissions on certificate files",
          "4. For development, generate self-signed certificates",
          "HTTP server will continue running without HTTPS.",
          "Set ENABLE_HTTPS=false to suppress this message."]
        exitCode := none }
  else
    { httpListening := true
      httpsServer := none
      logs := ["HTTPS disabled. Set ENABLE_HTTPS=true to enable secure server."]
      exitCode := none }

/-- `SHUTDOWN_TIMEOUT` (milliseconds). -/
def SHUTDOWN_TIMEOUT : Nat := 10000

/-- The instant (milliseconds after the signal) at which every active
listener has reported closed: the HTTP close-callback time, joined with
the HTTPS one when an HTTPS server exists; `none` when some listener
never reports closed. -/
def allClosedTime (httpsExists : Bool) (tHttp tHttps : Option Nat) : Option Nat :=
  match tHttp with
  | none => none
  | some a =>
    if httpsExists then
      match tHttps with
      | none => none
      | some b => some (max a b)
    else some a

/-- Outcome of `gracefulShutdown`: which listeners had `close()` called
on them (stopping new-connection acceptance), and when and with what code
the process exited. -/
structure ShutdownOutcome where
  closeCalledHttp : Bool
  closeCalledHttps : Bool
  exitTime : Nat
  exitCode : Nat
  deriving Repr, DecidableEq

/-- The exit code of the shutdown race: 0 from `checkAndExit` when every
close callback reports before the timer, else 1 from the forced
timeout. -/
def shutdownExitCode (httpsExists : Bool) (tHttp tHttps : Option Nat) : Nat :=
  match allClosedTime httpsExists tHttp tHttps with
  | some d => if d < SHUTDOWN_TIMEOUT then 0 else 1
  | none => 1

/-- The instant at which the process exits: the last close callback when
it wins the race, else the timeout. -/
def shutdownExitTime (httpsExists : Bool) (tHttp tHttps : Option Nat) : Nat :=
  match allClosedTime httpsExists tHttp tHttps with
  | some d => if d < SHUTDOWN_TIMEOUT then d else SHUTDOWN_TIMEOUT
  | none => SHUTDOWN_TIMEOUT

/-- `gracefulShutdown(signal)`: `close()` is called on every active
listener; `process.exit(0)` fires when the last close callback reports,
and the 10-second timer fires `process.exit(1)` if that has not happened
before the timeout. `tHttp`/`tHttps` are the times at which the close
callbacks would report; `none` means never (connections held open). -/
def gracefulShutdown (httpsExists : Bool) (tHttp tHttps : Option Nat) : ShutdownOutcome :=
  { closeCalledHttp := true
    closeCalledHttps := httpsExists
    exitTime := shutdownExitTime httpsExists tHttp tHttps
    exitCode := shutdownExitCode httpsExists tHttp tHttps }

/-! ### Helper lemmas -/

theorem parseIntWithDefault_pos (env : Option String) (d : Int) (hd : 0 < d) :
    0 < parseIntWithDefault env d := by
  cases env with
  | none => exact hd
  | some s =>
    show 0 < (if (s == "") = true then d else
      match jsParseInt s with
      | none => d
      | some parsed => if parsed > 0 then parsed else d)
    split
    · exact hd
    · cases hp : jsParseInt s with
      | none => simpa [hp] using hd
      | some p =>
        simp only [hp]
        split
        · assumption
        · exact hd

theorem parseIntWithDefault_invalid (env : Option String) (d : Int)
    (h : invalidRateEnv env = true) : parseIntWithDefault env d = d := by
  cases env with
  | none => rfl
  | some s =>
    by_cases hs : s = ""
    · subst hs; rfl
    · have hs' : (s == "") = false := beq_eq_false_iff_ne.mpr hs
      unfold invalidRateEnv at h
      unfold parseIntWithDefault
      simp only [hs', Bool.false_eq_true, if_false] at h ⊢
      cases hp : jsParseInt s with
      | none => simp [hp]
      | some p =>
        simp only [hp, decide_eq_true_eq] at h ⊢
        rw [if_neg (by omega)]

theorem parseIntWithDefault_valid (s : String) (n d : Int)
    (hp : jsParseInt s = some n) (hn : 0 < n) :
    parseIntWithDefault (some s) d = n := by
  have hs : (s == "") = false := by
    rcases eq_or_ne s "" with h | h
    · subst h
      rw [show jsParseInt "" = none from rfl] at hp
      cases hp
    · exact beq_eq_false_iff_ne.mpr h
  unfold parseIntWithDefault
  simp [hs, hp, hn]

/-! ### Claim theorems -/

/-- C1: for every value of `RATE_LIMIT_WINDOW_MS` and `RATE_LIMIT_MAX`,
the window length and max count of the limiter are positive; every
missing, empty, non-numeric, or non-positive value falls back exactly to
the documented default (900000 ms / 100), and every valid value is taken
whole. -/
theorem rateLimiter_config_positive_exact_fallback (envWindow envMax : Option String) :
    0 < (rateLimiterOptions envWindow envMax).windowMs ∧
    0 < (rateLimiterOptions envWindow envMax).limit ∧
    (invalidRateEnv envWindow = true →
      (rateLimiterOptions envWindow envMax).windowMs = 900000) ∧
    (invalidRateEnv envMax = true →
      (rateLimiterOptions envWindow envMax).limit = 100) ∧
    (∀ s n, envWindow = some s → jsParseInt s = some n → 0 < n →
      (rateLimiterOptions envWindow envMax).windowMs = n) ∧
    (∀ s n, envMax = some s → jsParseInt s = some n → 0 < n →
      (rateLimiterOptions envWindow envMax).limit = n) := by
  refine ⟨?_, ?_, ?_, ?_, ?_, ?_⟩
  · exact parseIntWithDefault_pos _ _ (by norm_num [DEFAULT_WINDOW_MS])
  · exact parseIntWithDefault_pos _ _ (by norm_num [DEFAULT_MAX_REQUESTS])
  · intro h
    have := parseIntWithDefault_invalid envWindow DEFAULT_WINDOW_MS h
    simpa [rateLimiterOptions, DEFAULT_WINDOW_MS] using this
  · intro h
    have := parseIntWithDefault_invalid envMax DEFAULT_MAX_REQUESTS h
    simpa [rateLimiterOptions, DEFAULT_MAX_REQUESTS] using this
  · intro s n hs hp hn
    subst hs
    exact parseIntWithDefault_valid s n _ hp hn
  · intro s n hs hp hn
    subst hs
    exact parseIntWithDefault_valid s n _ hp hn

/-- Witness for C1: a non-numeric window and a negative max both fall
back exactly to the defaults. -/
theorem rateLimiter_config_witness :
    (rateLimiterOptions (some "abc") (some "-5")).windowMs = 900000 ∧
    (rateLimiterOptions (some "abc") (some "-5")).limit = 100 ∧
    0 < (rateLimiterOptions (some "abc") (some "-5")).windowMs := by
  obtain ⟨h1, _, h3, h4, _, _⟩ :=
    rateLimiter_config_positive_exact_fallback (some "abc") (some "-5")
  exact ⟨h3 (by decide), h4 (by decide), h1⟩

/-- C2: every request rejected by the standard rate limiter gets status
429 with the structured body `{status:429, error:"Too Many Requests",
message:<string>}`, and the client identifier, request path, configured
limit and configured window are logged at warning level. -/
theorem rateLimiter_rejection_response (req : LimiterReq) (envWindow envMax : Option String) :
    (rateLimitHandler req (rateLimiterOptions envWindow envMax)).status = 429 ∧
    (rateLimitHandler req (rateLimiterOptions envWindow envMax)).body =
      { status := 429, error := "Too Many Requests",
        message := "You have exceeded the rate limit. Please try again later." } ∧
    (rateLimitHandler req (rateLimiterOptions envWindow envMax)).log.level = LogLevel.warn ∧
    (rateLimitHandler req (rateLimiterOptions envWindow envMax)).log.msg =
      "[Rate Limit] Exceeded - IP: " ++ limiterClientIP req ++ ", Path: " ++
        limiterRequestPath req ++ ", Limit: " ++
        toString (rateLimiterOptions envWindow envMax).limit ++ ", Window: " ++
        toString (rateLimiterOptions envWindow envMax).windowMs ++ "ms" :=
  ⟨rfl, rfl, rfl, rfl⟩

/-- C3: the rate-limit key is the forwarded-address header value when
proxy trust is enabled and the header is present, otherwise the direct
connection address, and the sentinel "unknown" when neither is
available. -/
theorem keyGenerator_client_identifier (trustProxy : Bool) (xff remote : Option String) :
    (∀ a, trustProxy = true → xff = some a → a ≠ "" →
      keyGenerator trustProxy xff remote = a) ∧
    (∀ r, (trustProxy = false ∨ jsTruthy xff = false) → remote = some r → r ≠ "" →
      keyGenerator trustProxy xff remote = r) ∧
    ((trustProxy = false ∨ jsTruthy xff = false) → jsTruthy remote = false →
      keyGenerator trustProxy xff remote = "unknown") := by
  refine ⟨?_, ?_, ?_⟩
  · intro a ht hx ha
    subst hx
    have hta : jsTruthy (some a) = true := by simp [jsTruthy, ha]
    simp [keyGenerator, expressReqIp, ht, hta, jsOrString, ha]
  · intro r hcase hr hne
    subst hr
    have hfalse : (trustProxy && jsTruthy xff) = false := by
      rcases hcase with h | h <;> simp [h]
    simp [keyGenerator, expressReqIp, hfalse, jsOrString, hne]
  · intro hcase hrf
    have hfalse : (trustProxy && jsTruthy xff) = false := by
      rcases hcase with h | h <;> simp [h]
    cases remote with
    | none => simp [keyGenerator, expressReqIp, hfalse, jsOrString]
    | some r =>
      have hr : r = "" := by simpa [jsTruthy] using hrf
      subst hr
      simp [keyGenerator, expressReqIp, hfalse, jsOrString]

/-- Witness for C3: the three derivation cases at concrete addresses. -/
theorem keyGenerator_client_identifier_witness :
    keyGenerator true (some "203.0.113.7") (some "10.0.0.1") = "203.0.113.7" ∧
    keyGenerator false (some "203.0.113.7") (some "10.0.0.1") = "10.0.0.1" ∧
    keyGenerator false none none = "unknown" := by
  refine ⟨?_, ?_, ?_⟩
  · exact (keyGenerator_client_identifier true (some "203.0.113.7") (some "10.0.0.1")).1
      "203.0.113.7" rfl rfl (by decide)
  · exact (keyGenerator_client_identifier false (some "203.0.113.7") (some "10.0.0.1")).2.1
      "10.0.0.1" (Or.inl rfl) rfl (by decide)
  · exact (keyGenerator_client_identifier false none none).2.2 (Or.inl rfl) rfl

/-- C7: every `GET /` request gets status 200, content type text/plain,
and body exactly "Hello, World!\n". -/
theorem get_root_hello (req : HttpRequest) (now : String) (uptime : Nat)
    (hm : req.method = "GET") (hp : req.path = "/") :
    appHandle req now uptime =
      { status := 200, contentType := "text/plain", body := Body.text "Hello, World!\n" } := by
  simp [appHandle, hm, hp]

/-- Witness for C7: the concrete request `GET /`. -/
theorem get_root_hello_witness :
    appHandle { method := "GET", path := "/", originalUrl := "/" } "2024-01-01T00:00:00.000Z" 3 =
      { status := 200, contentType := "text/plain", body := Body.text "Hello, World!\n" } :=
  get_root_hello _ _ _ rfl rfl

/-- C8: every request matching no route gets status 404 with JSON body
`{status:404, error:"Not Found", message:<string>, path:<original
request path>}`, the path echoing `req.originalUrl`. -/
theorem unmatched_route_404 (req : HttpRequest) (now : String) (uptime : Nat)
    (h1 : ¬(req.method = "GET" ∧ req.path = "/"))
    (h2 : ¬(req.method = "GET" ∧ req.path = "/health")) :
    appHandle req now uptime =
      { status := 404, contentType := "application/json"
        body := Body.notFound 404 "Not Found" "The requested resource could not be found"
          req.originalUrl } := by
  have e1 : (req.method == "GET" && req.path == "/") = false := by
    by_contra hc
    simp only [Bool.not_eq_false, Bool.and_eq_true, beq_iff_eq] at hc
    exact h1 hc
  have e2 : (req.method == "GET" && req.path == "/health") = false := by
    by_contra hc
    simp only [Bool.not_eq_false, Bool.and_eq_true, beq_iff_eq] at hc
    exact h2 hc
  simp [appHandle, e1, e2]

/-- Witness for C8: `GET /does-not-exist` yields a 404 body whose path is
the requested path. -/
theorem unmatched_route_404_witness :
    appHandle { method := "GET", path := "/does-not-exist", originalUrl := "/does-not-exist" }
        "2024-01-01T00:00:00.000Z" 3 =
      { status := 404, contentType := "application/json"
        body := Body.notFound 404 "Not Found" "The requested resource could not be found"
          "/does-not-exist" } :=
  unmatched_route_404 _ _ _ (by decide) (by decide)

theorem globalErrorHandler_status_eq (err : JsError) (isProd : Bool) :
    (globalErrorHandler err isProd).status = jsOrNat err.status (jsOrNat err.statusCode 500) :=
  rfl

theorem globalErrorHandler_message_eq (err : JsError) (isProd : Bool) :
    (globalErrorHandler err isProd).message =
      if (isProd && (jsOrNat err.status (jsOrNat err.statusCode 500) == 500)) = true then
        "An unexpected error occurred"
      else jsOrString err.message "An unexpected error occurred" :=
  rfl

theorem globalErrorHandler_stack_eq (err : JsError) (isProd : Bool) :
    (globalErrorHandler err isProd).stack =
      if (!isProd && jsTruthy err.stack) = true then err.stack else none :=
  rfl

/-- C4: the global error handler uses the error's declared status (else
500); the error label is "Internal Server Error" exactly for 500; the
message is redacted to a generic string when production-flagged and the
status is 500, and otherwise carries the error's own message; a stack
field appears only outside production. -/
theorem globalErrorHandler_contract (err : JsError) (isProd : Bool) :
    (declaredStatus err = none → (globalErrorHandler err isProd).status = 500) ∧
    (∀ n, declaredStatus err = some n → (globalErrorHandler err isProd).status = n) ∧
    ((globalErrorHandler err isProd).error =
      if (globalErrorHandler err isProd).status == 500 then "Internal Server Error"
      else "Error") ∧
    (isProd = true → (globalErrorHandler err isProd).status = 500 →
      (globalErrorHandler err isProd).message = "An unexpected error occurred") ∧
    (∀ m, ¬(isProd = true ∧ (globalErrorHandler err isProd).status = 500) →
      err.message = some m → m ≠ "" →
      (globalErrorHandler err isProd).message = m) ∧
    ((globalErrorHandler err isProd).stack ≠ none → isProd = false) := by
  obtain ⟨st, sc, msg, stk⟩ := err
  refine ⟨?_, ?_, rfl, ?_, ?_, ?_⟩
  · intro h
    rw [globalErrorHandler_status_eq]
    cases st with
    | none =>
      cases sc with
      | none => rfl
      | some m =>
        simp only [declaredStatus] at h
        by_cases hm : m == 0
        · simp [jsOrNat, hm]
        · simp [hm] at h
    | some n =>
      simp only [declaredStatus] at h
      by_cases hn : n == 0
      · simp only [hn, if_true] at h
        cases sc with
        | none => simp [jsOrNat, hn]
        | some m =>
          by_cases hm : m == 0
          · simp [jsOrNat, hn, hm]
          · simp [hm] at h
      · simp [hn] at h
  · intro n h
    rw [globalErrorHandler_status_eq]
    cases st with
    | none =>
      cases sc with
      | none => simp [declaredStatus] at h
      | some m =>
        simp only [declaredStatus] at h
        by_cases hm : m == 0
        · simp [hm] at h
        · simp only [hm, if_false, Bool.false_eq_true] at h
          injection h with h
          subst h
          simp [jsOrNat, hm]
    | some k =>
      simp only [declaredStatus] at h
      by_cases hk : k == 0
      · simp only [hk, if_true] at h
        cases sc with
        | none => simp at h
        | some m =>
          by_cases hm : m == 0
          · simp [hm] at h
          · simp only [hm, if_false, Bool.false_eq_true] at h
            injection h with h
            subst h
            simp [jsOrNat, hk, hm]
      · simp only [hk, if_false, Bool.false_eq_true] at h
        injection h with h
        subst h
        simp [jsOrNat, hk]
  · intro hp h500
    rw [globalErrorHandler_status_eq] at h500
    rw [globalErrorHandler_message_eq]
    simp [hp, h500]
  · intro m hnot hmsg hm
    have hmsg' : msg = some m := hmsg
    rw [globalErrorHandler_message_eq]
    have hcond : (isProd && (jsOrNat st (jsOrNat sc 500) == 500)) = false := by
      cases hpv : isProd with
      | false => simp
      | true =>
        have hne : jsOrNat st (jsOrNat sc 500) ≠ 500 := by
          intro heq
          exact hnot ⟨hpv, by rw [globalErrorHandler_status_eq]; exact heq⟩
        simp [hne]
    rw [hcond]
    simp only [Bool.false_eq_true, if_false]
    rw [hmsg']
    simp [jsOrString, hm]
  · cases isProd with
    | false => intro _; rfl
    | true =>
      intro hne
      exfalso
      apply hne
      rw [globalErrorHandler_stack_eq]
      simp

/-- Witness for C4: an error with no declared status and message "boom",
outside production, yields status 500 and the unredacted message. -/
theorem globalErrorHandler_contract_witness :
    (globalErrorHandler ⟨none, none, some "boom", some "trace"⟩ false).status = 500 ∧
    (globalErrorHandler ⟨none, none, some "boom", some "trace"⟩ false).message = "boom" := by
  obtain ⟨h1, _, _, _, h5, _⟩ :=
    globalErrorHandler_contract ⟨none, none, some "boom", some "trace"⟩ false
  exact ⟨h1 rfl, h5 "boom" (by simp) rfl (by decide)⟩

/-- C5: when HTTPS is enabled and `createSecureServer` throws, the
failure is logged with remediation guidance and the process keeps
serving plain HTTP only, with no exit. -/
theorem https_startup_failure_nonfatal (port : String) (env : CertEnv)
    (fs : String → FileState) (e : String)
    (h : (createSecureServer port env fs).1 = Except.error e) :
    (startServers true port env fs).httpListening = true ∧
    (startServers true port env fs).httpsServer = none ∧
    (startServers true port env fs).exitCode = none ∧
    ("Failed to start HTTPS server: " ++ e) ∈ (startServers true port env fs).logs ∧
    "Troubleshooting steps:" ∈ (startServers true port env fs).logs ∧
    "HTTP server will continue running without HTTPS." ∈ (startServers true port env fs).logs := by
  unfold startServers
  rw [h]
  refine ⟨rfl, rfl, rfl, ?_, ?_, ?_⟩ <;> simp

/-- Witness for C5: with every certificate file missing, the key-file
error is caught, logged, and the HTTP listener survives. -/
theorem https_startup_failure_nonfatal_witness :
    (startServers true "8443" ⟨none, none⟩ (fun _ => FileState.missing)).httpListening = true ∧
    (startServers true "8443" ⟨none, none⟩ (fun _ => FileState.missing)).httpsServer = none ∧
    (startServers true "8443" ⟨none, none⟩ (fun _ => FileState.missing)).exitCode = none ∧
    ("Failed to start HTTPS server: " ++
        ("SSL private key file not found. Please ensure the file exists at the configured path. Set SSL_KEY_PATH environment variable or place key at " ++
          DEFAULT_KEY_PATH)) ∈
      (startServers true "8443" ⟨none, none⟩ (fun _ => FileState.missing)).logs := by
  have h := https_startup_failure_nonfatal "8443" ⟨none, none⟩ (fun _ => FileState.missing)
    ("SSL private key file not found. Please ensure the file exists at the configured path. Set SSL_KEY_PATH environment variable or place key at " ++
      DEFAULT_KEY_PATH) (by rfl)
  exact ⟨h.1, h.2.1, h.2.2.1, h.2.2.2.1⟩

/-- C6: on a termination signal, close is requested on every active
listener; the process exits 0 at the instant all listeners report
closed when that happens within the 10-second timeout, and otherwise
force-exits with a non-zero code at the timeout. -/
theorem graceful_shutdown_contract (httpsExists : Bool) (tHttp tHttps : Option Nat) :
    (gracefulShutdown httpsExists tHttp tHttps).closeCalledHttp = true ∧
    (gracefulShutdown httpsExists tHttp tHttps).closeCalledHttps = httpsExists ∧
    (∀ d, allClosedTime httpsExists tHttp tHttps = some d → d < SHUTDOWN_TIMEOUT →
      (gracefulShutdown httpsExists tHttp tHttps).exitCode = 0 ∧
      (gracefulShutdown httpsExists tHttp tHttps).exitTime = d) ∧
    ((∀ d, allClosedTime httpsExists tHttp tHttps = some d → SHUTDOWN_TIMEOUT ≤ d) →
      (gracefulShutdown httpsExists tHttp tHttps).exitCode = 1 ∧
      (gracefulShutdown httpsExists tHttp tHttps).exitTime = SHUTDOWN_TIMEOUT ∧
      (gracefulShutdown httpsExists tHttp tHttps).exitCode ≠ 0) := by
  refine ⟨rfl, rfl, ?_, ?_⟩
  · intro d hd hlt
    constructor
    · show shutdownExitCode httpsExists tHttp tHttps = 0
      unfold shutdownExitCode
      rw [hd]
      simp [hlt]
    · show shutdownExitTime httpsExists tHttp tHttps = d
      unfold shutdownExitTime
      rw [hd]
      simp [hlt]
  · intro hge
    have hcode : shutdownExitCode httpsExists tHttp tHttps = 1 := by
      unfold shutdownExitCode
      cases hac : allClosedTime httpsExists tHttp tHttps with
      | none => rfl
      | some d0 =>
        have := hge d0 hac
        show (if d0 < SHUTDOWN_TIMEOUT then (0 : Nat) else 1) = 1
        rw [if_neg (by omega)]
    have htime : shutdownExitTime httpsExists tHttp tHttps = SHUTDOWN_TIMEOUT := by
      unfold shutdownExitTime
      cases hac : allClosedTime httpsExists tHttp tHttps with
      | none => rfl
      | some d0 =>
        have := hge d0 hac
        show (if d0 < SHUTDOWN_TIMEOUT then d0 else SHUTDOWN_TIMEOUT) = SHUTDOWN_TIMEOUT
        rw [if_neg (by omega)]
    exact ⟨hcode, htime, by rw [show (gracefulShutdown httpsExists tHttp tHttps).exitCode
      = shutdownExitCode httpsExists tHttp tHttps from rfl, hcode]; decide⟩

/-- Witness for C6: with both listeners closing at 100 ms and 2000 ms,
the process exits 0 at 2000 ms. -/
theorem graceful_shutdown_witness :
    (gracefulShutdown true (some 100) (some 2000)).exitCode = 0 ∧
    (gracefulShutdown true (some 100) (some 2000)).exitTime = 2000 ∧
    (gracefulShutdown true (some 100) (some 2000)).closeCalledHttps = true := by
  obtain ⟨_, h2, h3, _⟩ := graceful_shutdown_contract true (some 100) (some 2000)
  obtain ⟨hc, ht⟩ := h3 2000 (by rfl) (by decide)
  exact ⟨hc, ht, h2⟩

/-- C10: `createSecureServer` rejects every port string that does not
parse into 0..65535 with an "Invalid port number" error and without
attempting certificate loading; for every in-range port it proceeds to
certificate loading. -/
theorem createSecureServer_port_validation (port : String) (env : CertEnv)
    (fs : String → FileState) :
    (isValidPort port = false →
      (createSecureServer port env fs).1 =
        Except.error ("Invalid port number: " ++ port ++
          ". Port must be between 0 and 65535.") ∧
      StartupEvent.certLoadAttempt ∉ (createSecureServer port env fs).2) ∧
    (isValidPort port = true →
      StartupEvent.certLoadAttempt ∈ (createSecureServer port env fs).2) := by
  constructor
  · intro hv
    unfold isValidPort at hv
    unfold createSecureServer
    cases hp : jsParseInt port with
    | none => simp
    | some n =>
      rw [hp] at hv
      simp only [Bool.and_eq_false_iff, decide_eq_false_iff_not, not_le] at hv
      have hcond : (decide (n < 0) || decide (n > 65535)) = true := by
        simp only [Bool.or_eq_true, decide_eq_true_eq]
        omega
      simp [hcond]
  · intro hv
    unfold isValidPort at hv
    unfold createSecureServer
    cases hp : jsParseInt port with
    | none => rw [hp] at hv; cases hv
    | some n =>
      rw [hp] at hv
      simp only [Bool.and_eq_true, decide_eq_true_eq] at hv
      have hcond : (decide (n < 0) || decide (n > 65535)) = false := by
        simp only [Bool.or_eq_false_iff, decide_eq_false_iff_not, not_lt]
        omega
      simp only [hcond, Bool.false_eq_true, if_false]
      cases getHttpsOptions env fs <;> simp

/-- Witness for C10: port "99999" is rejected without certificate
access; port "443" reaches certificate loading. -/
theorem createSecureServer_port_validation_witness :
    (createSecureServer "99999" ⟨none, none⟩ (fun _ => FileState.missing)).1 =
      Except.error "Invalid port number: 99999. Port must be between 0 and 65535." ∧
    StartupEvent.certLoadAttempt ∈
      (createSecureServer "443" ⟨none, none⟩ (fun _ => FileState.missing)).2 := by
  constructor
  · exact ((createSecureServer_port_validation "99999" ⟨none, none⟩
      (fun _ => FileState.missing)).1 (by decide)).1
  · exact (createSecureServer_port_validation "443" ⟨none, none⟩
      (fun _ => FileState.missing)).2 (by decide)

theorem splitOnChar_ne_nil (sep : Char) (cs : List Char) : splitOnChar sep cs ≠ [] := by
  induction cs with
  | nil => simp [splitOnChar]
  | cons c rest ih =>
    simp only [splitOnChar]
    by_cases hc : (c == sep) = true
    · rw [if_pos hc]; simp
    · rw [if_neg hc]
      cases h : splitOnChar sep rest with
      | nil => simp
      | cons hh tt => simp

theorem splitOnChar_mem {sep : Char} :
    ∀ {cs piece : List Char} {c : Char},
      piece ∈ splitOnChar sep cs → c ∈ piece → c ∈ cs ∧ c ≠ sep := by
  intro cs
  induction cs with
  | nil =>
    intro piece c hp hc
    simp only [splitOnChar, List.mem_singleton] at hp
    subst hp
    cases hc
  | cons a rest ih =>
    intro piece c hp hc
    simp only [splitOnChar] at hp
    by_cases ha : (a == sep) = true
    · rw [if_pos ha] at hp
      rcases List.mem_cons.mp hp with h | h
      · subst h; cases hc
      · obtain ⟨h1, h2⟩ := ih h hc
        exact ⟨List.mem_cons_of_mem _ h1, h2⟩
    · rw [if_neg ha] at hp
      have hane : a ≠ sep := by simpa using ha
      cases hr : splitOnChar sep rest with
      | nil => exact absurd hr (splitOnChar_ne_nil sep rest)
      | cons hh tt =>
        rw [hr] at hp
        rcases List.mem_cons.mp hp with h | h
        · subst h
          rcases List.mem_cons.mp hc with h | h
          · subst h
            exact ⟨List.mem_cons_self _ _, hane⟩
          · have hhh : hh ∈ splitOnChar sep rest := by
              rw [hr]; exact List.mem_cons_self _ _
            obtain ⟨h1, h2⟩ := ih hhh h
            exact ⟨List.mem_cons_of_mem _ h1, h2⟩
        · have hmem : piece ∈ splitOnChar sep rest := by
            rw [hr]; exact List.mem_cons_of_mem _ h
          obtain ⟨h1, h2⟩ := ih hmem hc
          exact ⟨List.mem_cons_of_mem _ h1, h2⟩

theorem dropWhile_rdropWhile_self (p : Char → Bool) (m : List Char)
    (hm : List.dropWhile p m = m) :
    List.dropWhile p (List.rdropWhile p m) = List.rdropWhile p m := by
  rw [List.dropWhile_eq_self_iff]
  intro hl
  have hpre : List.rdropWhile p m <+: m := List.rdropWhile_prefix p m
  have hlen : 0 < m.length := lt_of_lt_of_le hl hpre.sublist.length_le
  have h0 : ¬p (m.get ⟨0, hlen⟩) := List.dropWhile_eq_self_iff.mp hm hlen
  have heq : (List.rdropWhile p m).get ⟨0, hl⟩ = m.get ⟨0, hlen⟩ := by
    simpa [List.get_eq_getElem] using List.IsPrefix.getElem hpre hl
  rw [heq]
  exact h0

theorem trimChars_idem (l : List Char) : trimChars (trimChars l) = trimChars l := by
  unfold trimChars
  rw [dropWhile_rdropWhile_self Char.isWhitespace (List.dropWhile Char.isWhitespace l)
    (List.dropWhile_idempotent Char.isWhitespace l)]
  exact List.rdropWhile_idempotent Char.isWhitespace _

theorem trimChars_eq_nil {l : List Char} (h : ∀ c ∈ l, Char.isWhitespace c) :
    trimChars l = [] := by
  unfold trimChars
  rw [List.dropWhile_eq_nil_iff.mpr h]
  simp

/-- C9: an `ALLOWED_ORIGINS` value made only of commas and whitespace
parses to the empty whitelist; the two localhost defaults are used
exactly when the variable is unset or the empty string; and every parsed
origin is trimmed of surrounding whitespace and non-empty. -/
theorem parseAllowedOrigins_contract (env : Option String) :
    (env = none → parseAllowedOrigins env = defaultOrigins) ∧
    (env = some "" → parseAllowedOrigins env = defaultOrigins) ∧
    (∀ s, env = some s → s ≠ "" → (∀ c ∈ s.toList, c = ',' ∨ Char.isWhitespace c) →
      parseAllowedOrigins env = []) ∧
    (∀ o ∈ parseAllowedOrigins env, String.mk (trimChars o.toList) = o ∧ o ≠ "") := by
  refine ⟨?_, ?_, ?_, ?_⟩
  · intro h; subst h; rfl
  · intro h; subst h; rfl
  · intro s hs hne hall
    subst hs
    have ht : jsTruthy (some s) = true := by simp [jsTruthy, hne]
    unfold parseAllowedOrigins
    rw [if_pos ht]
    have hjs : jsOrString (some s) "" = s := by simp [jsOrString, hne]
    rw [hjs]
    have hfilter :
        ((splitOnChar ',' s.toList).map trimChars).filter (fun l => l.length > 0) = [] := by
      rw [List.filter_eq_nil_iff]
      intro a ha
      obtain ⟨piece, hpiece, rfl⟩ := List.mem_map.mp ha
      have hws : ∀ c ∈ piece, Char.isWhitespace c := by
        intro c hc
        obtain ⟨hcs, hcne⟩ := splitOnChar_mem hpiece hc
        rcases hall c hcs with h | h
        · exact absurd h hcne
        · exact h
      simp [trimChars_eq_nil hws]
    rw [hfilter]
    rfl
  · intro o ho
    unfold parseAllowedOrigins at ho
    by_cases ht : jsTruthy env = true
    · rw [if_pos ht] at ho
      obtain ⟨l', hl', rfl⟩ := List.mem_map.mp ho
      have hlf := List.mem_filter.mp hl'
      obtain ⟨piece, _, hpe⟩ := List.mem_map.mp hlf.1
      constructor
      · show String.mk (trimChars l') = String.mk l'
        rw [← hpe, trimChars_idem]
      · intro hcontra
        have hnil : l' = [] := congrArg String.toList hcontra
        have hlen := hlf.2
        rw [hnil] at hlen
        simp at hlen
    · rw [if_neg ht] at ho
      simp only [defaultOrigins, List.mem_cons, List.mem_singleton] at ho
      rcases ho with rfl | ho
      · exact ⟨by decide, by decide⟩
      · rcases ho with rfl | ho
        · exact ⟨by decide, by decide⟩
        · cases ho

/-- Witness for C9: a commas-and-whitespace value yields the empty
whitelist, and an unset variable yields the localhost defaults. -/
theorem parseAllowedOrigins_witness :
    parseAllowedOrigins (some " , ,, ") = [] ∧
    parseAllowedOrigins none = defaultOrigins := by
  obtain ⟨_, _, h3, _⟩ := parseAllowedOrigins_contract (some " , ,, ")
  obtain ⟨h1, _, _, _⟩ := parseAllowedOrigins_contract none
  exact ⟨h3 " , ,, " rfl (by decide) (by decide), h1 rfl⟩

end NestedRepo
